import Mathlib

/-!
Shallow embedding of the `/chat` endpoint of MathMate Pro (`src/main.py`).

The HTML page served by the `/` route, the Flask plumbing and the OpenAI
client are out of scope; the `chat` view function (main.py, lines 448-587)
is embedded as a pure function.  The completion service is passed in as an
oracle `svc : List Msg → Nat → Except String Completion`: the endpoint
either answers before calling it (auth gate, oversized-image gate) or calls
it exactly once with the assembled message list and the `max_tokens` bound,
and an exception raised by the call is the `Except.error` case, which the
endpoint's `try/except` turns into a 500 response.

Python strings are modelled as Lean `String`s; `str.strip` and
`str.lower` are modelled by the structurally recursive `pyStrip` and
`pyLower` below (whitespace trimming and ASCII lowercasing, which is what
the endpoint relies on); Python floats (the per-token price rates) are
modelled as exact rationals; Python ints as `Int`/`Nat`.
-/

/-- Model of Python `str.strip()`: drop whitespace from both ends. -/
def pyStrip (s : String) : String :=
  String.mk (((s.data.dropWhile Char.isWhitespace).reverse.dropWhile Char.isWhitespace).reverse)

/-- Model of Python `str.lower()`. -/
def pyLower (s : String) : String :=
  String.mk (s.data.map Char.toLower)

/-- Role-tagged message content: either a plain string (system and history
messages) or a list of typed parts (the current user turn, which may mix
text and image URLs). -/
inductive MPart where
  | text (s : String)
  | image (url : String)
deriving DecidableEq

/-- Content of an outbound message. -/
inductive Content where
  | text (s : String)
  | parts (ps : List MPart)
deriving DecidableEq

/-- One outbound role-tagged message. -/
structure Msg where
  role : String
  content : Content
deriving DecidableEq

/-- One entry of the rolling client-side history list
(`[{role:..., content:...}]` in the request JSON). -/
structure HistEntry where
  role : String
  content : String
deriving DecidableEq

/-- The request fields the `chat` view reads, after the JSON-level
`str(p.get(..) or "")` coercions: missing fields are already the empty
string / empty list here. -/
structure ChatRequest where
  message : String
  images : List String
  level : String
  grade : String
  current : String
  focus : String
  history : List HistEntry
  xAuth : String

/-- Server configuration: `PASSWORD`, `DEBUG` and the three derived
per-token price rates (main.py, lines 17-28), floats modelled as exact
rationals. -/
structure Config where
  password : String
  debug : Bool
  rate_input : ℚ
  rate_cached_input : ℚ
  rate_output : ℚ

/-- The `usage` object attached to a completion; each token counter may be
absent (`None` in Python). -/
structure RawUsage where
  prompt_tokens : Option Int
  completion_tokens : Option Int
  total_tokens : Option Int
deriving DecidableEq

/-- What the completion service returns: the text of
`completion.choices[0].message.content` plus the optional usage object. -/
structure Completion where
  content : String
  usage : Option RawUsage
deriving DecidableEq

/-- Models `int(getattr(usage, "prompt_tokens", 0) or 0)` (main.py, line
558): missing usage object or missing/None field collapses to 0. -/
def promptTokensOf (c : Completion) : Int :=
  match c.usage with
  | none => 0
  | some u => u.prompt_tokens.getD 0

/-- Models `int(getattr(usage, "completion_tokens", 0) or 0)` (line 559). -/
def completionTokensOf (c : Completion) : Int :=
  match c.usage with
  | none => 0
  | some u => u.completion_tokens.getD 0

/-- Models `int(getattr(usage, "total_tokens", prompt_tokens +
completion_tokens) or 0)` (line 560): the sum default is used only when the
usage object itself is absent. -/
def totalTokensOf (c : Completion) : Int :=
  match c.usage with
  | none => promptTokensOf c + completionTokensOf c
  | some u => u.total_tokens.getD 0

/-- The `usage` object of the JSON response (line 572). -/
structure UsageOut where
  prompt_tokens : Int
  completion_tokens : Int
  total_tokens : Int
deriving DecidableEq

/-- The `cost` object of the JSON response (lines 573-576). -/
structure Cost where
  upper_bound_usd : ℚ
  with_cache_assumed_usd : ℚ
deriving DecidableEq

/-- The `rates` object of the JSON response (lines 577-581). -/
structure Rates where
  rate_input : ℚ
  rate_cached_input : ℚ
  rate_output : ℚ
deriving DecidableEq

/-- A `/chat` JSON response together with its HTTP status; fields absent
from a given `jsonify(...)` call are `none`. -/
structure ChatResponse where
  status : Nat
  reply : Option String := none
  error : Option String := none
  usage : Option UsageOut := none
  cost : Option Cost := none
  rates : Option Rates := none
deriving DecidableEq

/-- The static system prompt `MATHMATE_PROMPT` (main.py, lines 33-81; a raw
triple-quoted Python string, so the doubled backslashes are literal). -/
def MATHMATE_PROMPT : String :=
"
🎯 MATHMATE — Teach-While-Questioning (Acton + Khan), vision-capable.

ROLE
You are a math GUIDE. You NEVER give the final numeric answer or say “correct/incorrect,” but you DO teach the method clearly while asking for the learner’s moves.

GLOBAL RULES
• Never invent or transform numbers. Use ONLY digits you can read in the learner’s message/image. If any digit is unclear, ask for a quick confirm (“For row 3 is it x=29, y=28?”).
• Do not reveal the final answer. Do not say “correct/incorrect/right/wrong.”
• You MAY name operations/formulas when explaining steps (e.g., “compute y/x for each row”), but do not print the final number.
• Stay anchored to the Focus Anchor. Avoid repetition and do not reset the conversation.
• LaTeX: always write fractions as $\\\\frac{y}{x}$ (never “fracyx”). Plain text fallback: (y)/(x).

VISION-GROUNDED READING (before you coach)
1) Silently read the prompt/image and extract:
   • the target constant (e.g., $k=0.9$) and the orientation (between y and x → $\\\\frac{y}{x}$ only — never swap),
   • the exact (x, y) pairs for the tables/options you discuss.
2) FIRST: Restate the pairs you can read and ask for confirmation. If any value is uncertain, show a “?” and ask them to type it. Do not proceed to math until they confirm.

PRIVATE CHECK (silent)
• Privately compute with the confirmed pairs only. Never print the private numbers or results.
• Use this to pick your path:
  GREEN: Looks consistent → gentle nudge to submit (“Ready to lock that in?”) or offer one quick verification choice.
  YELLOW: Missing/uncertain → ask for a tiny confirm (which row, which order, format).
  RED: Not consistent → block submission and point to the exact place to re-check (e.g., “row 2 ratio order”), without numbers.

LEVEL BEHAVIOR
• 🐣 Apprentice — Short step-by-step teaching (2–7 short sentences). State the method, then ask for one tiny action.
• 🦸 Rising Hero — ≤3 short sentences total: one hint + one guiding question/options.
• 🧠 Master — One concise guiding question only.

TEACH-WHILE-QUESTIONING
1) State the method: “Check $k=\\\\frac{y}{x}$ for each row.” (or the required format)
2) Do ONE micro-step together (pick a row; ask them to compute $\\\\frac{y}{x}$). You do not print the number.
3) After your private check, nudge/block accordingly (never say correct/incorrect).
4) Keep momentum; if you start “Table A… Table B…”, complete the current item before ending.

ANSWER-ONLY HANDLER (e.g., “A/B/C”)
• Do a PRIVATE CHECK first. If GREEN, nudge to submit or verify one row from that option. If RED, block submission and point to a specific row/ordering to re-check.

FORMAT / KHAN AWARENESS
• Match required format (fraction vs decimal). Ask to align if mismatched.

GRADE GUIDE (tone)
• K–2: ultra-simple words, one idea per sentence. 3–5: simple language + kid-friendly definitions. 6–8: standard terms; connect to unit rate. 9–12: precise terminology; justification/checks.

STYLE
Friendly, curious, never condescending. ≤2 emojis from: 🔎🧩✨💡✅🙌📘📐📊📝🎯🚀🧠📷🔧🌟🤔.
"

/-- The `HARD_CONSTRAINT` system line (main.py, lines 83-88). -/
def HARD_CONSTRAINT : String :=
  "Hard constraint: do not fabricate or transform digits; if any number is uncertain, ask to confirm and WAIT for confirmation; silently compute to guide coaching but never print private calculations or the final numeric result; avoid repetition and generic resets; stay on the Focus Anchor; follow LEVEL length rules (Apprentice step-by-step; Rising Hero brief+question; Master single short question)."

/-- The dynamic level line (main.py, lines 494-502); empty for an
unrecognized level, which makes `add` drop it. -/
def level_line (lv : String) : String :=
  if lv = "apprentice" then
    "LEVEL=Apprentice. You may explain proactively (2–6 short sentences) and must include a guiding question or options."
  else if lv = "rising hero" then
    "LEVEL=Rising Hero. Brief coaching allowed (≤2 short sentences) plus one guiding question or options. Total 1–3 sentences."
  else if lv = "master" then
    "LEVEL=Master. No explanations unless asked. One concise guiding question only."
  else ""

/-- The level strings for which `level_line` is nonempty. -/
def recognizedLevel (lv : String) : Prop :=
  lv = "apprentice" ∨ lv = "rising hero" ∨ lv = "master"

instance (lv : String) : Decidable (recognizedLevel lv) := by
  unfold recognizedLevel
  infer_instance

/-- The dynamic grade line (main.py, line 504). -/
def grade_line (grade : String) : String :=
  "GRADE=" ++ (if grade = "" then "unknown" else grade) ++ " for tone. Use Grade Guide; simplify language for younger grades and increase rigor for older grades."

/-- The dynamic focus line (main.py, lines 505-508). -/
def focus_line (focus : String) : String :=
  "Focus Anchor: " ++ (if focus = "" then "(infer from latest learner content)" else focus) ++ " Stay on this focus; do not switch topics unless the learner clearly starts a new problem or says \x27new question/new problem\x27."

/-- The vision-guard system line added when an image is present
(main.py, lines 511-518). -/
def VISION_GUARD : String :=
  "VISION GUARD: An image is present. Your FIRST reply must ONLY restate the (x,y) pairs you can read for any table/option you will discuss, in this compact format, without calculations: \"Read pairs → A: (x1,y1); (x2,y2) | B: ... | C: ... . Confirm Y/N?\" If any value is uncertain, use \x27?\x27 and ask the learner to type it. Do not proceed to math until the learner confirms."

/-- Models the truthiness of `str(content or "").strip()`: true iff the
string has a character that is not whitespace. -/
def truthyStr (s : String) : Bool :=
  s.data.any (fun c => !c.isWhitespace)

/-- The local helper `add(msgs, role, content)` (main.py, lines 520-522):
append a plain-text message unless the content is whitespace-only. -/
def add (msgs : List Msg) (role content : String) : List Msg :=
  if truthyStr content then msgs ++ [⟨role, Content.text content⟩] else msgs

/-- One iteration of the history loop (main.py, lines 533-537): strip the
content, drop the entry when nothing is left, map any non-assistant role to
"user".  (The inner `add` re-checks the stripped content, which is
redundant once it is known to be nonempty.) -/
def histEntryMsg (h : HistEntry) : Option Msg :=
  if pyStrip h.content = "" then none
  else some ⟨if h.role = "assistant" then "assistant" else "user", Content.text (pyStrip h.content)⟩

/-- The messages contributed by `history[-6:]` (main.py, lines 533-537):
the loop appends, in order, one message per surviving entry of the last-6
window. -/
def histMsgs (history : List HistEntry) : List Msg :=
  (history.drop (history.length - 6)).filterMap histEntryMsg

/-- The current-turn content (main.py, lines 485-491): optional text part,
then one part per (already truncated) image, with a fixed placeholder text
when both are absent. -/
def user_content (text : String) (images : List String) : List MPart :=
  let uc := (if text = "" then [] else [MPart.text text]) ++ images.map MPart.image
  if uc = [] then [MPart.text "Please analyze the attached image problem."] else uc

/-- The reply-size bound by level (main.py, lines 543-545). -/
def max_out (lv : String) : Nat :=
  if lv = "apprentice" then 240 else if lv = "rising hero" then 160 else 120

/-- The server-side image size estimate `approx_kb` (main.py, lines
475-480): take what follows the first comma and return `len * 3 / 4 / 1024`
rounded down; any string without a comma raises `IndexError`, which the
bare `except` maps to 0.  (`int()` of the Python float division is the
floor here because the operands are nonnegative and exact in binary.) -/
def afterFirstComma : List Char → Option (List Char)
  | [] => none
  | c :: cs => if c = ',' then some cs else afterFirstComma cs

/-- See `afterFirstComma`; this is the whole `approx_kb` helper. -/
def approx_kb (data_url : String) : Nat :=
  match afterFirstComma data_url.data with
  | none => 0
  | some b64 => b64.length * 3 / 4 / 1024

/-- The unlock response (main.py, lines 463-471). -/
def unlockResponse (cfg : Config) : ChatResponse :=
  { status := 200
    reply := some "🔓 Unlocked! Pick your grade & level, then send your problem or a photo. ✨"
    rates := some ⟨cfg.rate_input, cfg.rate_cached_input, cfg.rate_output⟩ }

/-- The locked response (main.py, line 472). -/
def lockedResponse : ChatResponse :=
  { status := 200
    reply := some "🔒 Please type the access password to begin." }

/-- The oversized-image response (main.py, line 482). -/
def cropResponse : ChatResponse :=
  { status := 200
    reply := some "That picture is still pretty big. Could you crop to just the problem and resend? 📷✂️" }

/-- What the endpoint decides before any completion call: either an early
response, or the assembled message list plus `max_tokens` for the call. -/
inductive Phase1 where
  | early (resp : ChatResponse)
  | call (messages : List Msg) (maxTokens : Nat)
deriving DecidableEq

/-- True iff the endpoint reached the completion call. -/
def isCall : Phase1 → Bool
  | .early _ => false
  | .call _ _ => true

/-- The message list of a `call` decision (empty for an early response). -/
def phase1Messages : Phase1 → List Msg
  | .early _ => []
  | .call ms _ => ms

/-- Everything the `chat` view does before the completion call (main.py,
lines 450-545): field extraction with stripping, image truncation to one,
the auth gate, the oversized-image gate, and message assembly. -/
def chatPhase1 (cfg : Config) (req : ChatRequest) : Phase1 :=
  let text := pyStrip req.message
  let images := req.images.take 1
  let level := pyStrip req.level
  let grade := pyStrip req.grade
  let focus := pyStrip req.focus
  if req.xAuth ≠ cfg.password then
    if pyLower text = pyLower cfg.password then Phase1.early (unlockResponse cfg)
    else Phase1.early lockedResponse
  else if req.images.any (fun u => decide (800 < approx_kb u)) then
    Phase1.early cropResponse
  else
    let lv := pyLower level
    let messages := add [] "system" MATHMATE_PROMPT
    let messages := add messages "system" (grade_line grade)
    let messages := add messages "system" (level_line lv)
    let messages := add messages "system" (focus_line focus)
    let messages := add messages "system" (if images.isEmpty then "" else VISION_GUARD)
    let messages := add messages "system" HARD_CONSTRAINT
    let messages := messages ++ histMsgs req.history
    let messages := messages ++ [⟨"user", Content.parts (user_content text images)⟩]
    Phase1.call messages (max_out lv)

/-- What the `chat` view does with the completion call's outcome: the
normal 200 response with usage, cost estimates and rates (main.py, lines
556-582), or the `except` handler's 500 response (lines 584-587). -/
def chatPhase2 (cfg : Config) (outcome : Except String Completion) : ChatResponse :=
  match outcome with
  | .error e => { status := 500, error := some (if cfg.debug then e else "Server error") }
  | .ok completion =>
    let prompt_tokens := promptTokensOf completion
    let completion_tokens := completionTokensOf completion
    let total_tokens := totalTokensOf completion
    let cost_upper := (prompt_tokens : ℚ) * cfg.rate_input + (completion_tokens : ℚ) * cfg.rate_output
    let assumed_cached := min 600 prompt_tokens
    let cost_with_cache := ((prompt_tokens - assumed_cached : Int) : ℚ) * cfg.rate_input + ((assumed_cached : Int) : ℚ) * cfg.rate_cached_input + (completion_tokens : ℚ) * cfg.rate_output
    { status := 200
      reply := some completion.content
      usage := some ⟨prompt_tokens, completion_tokens, total_tokens⟩
      cost := some ⟨cost_upper, cost_with_cache⟩
      rates := some ⟨cfg.rate_input, cfg.rate_cached_input, cfg.rate_output⟩ }

/-- The whole `/chat` endpoint: decide, then call the completion service
exactly when phase 1 says so. -/
def chat (cfg : Config) (svc : List Msg → Nat → Except String Completion) (req : ChatRequest) : ChatResponse :=
  match chatPhase1 cfg req with
  | .early r => r
  | .call ms mo => chatPhase2 cfg (svc ms mo)

/-- True iff the first list is a prefix of the second. -/
def isPrefixChars : List Char → List Char → Bool
  | [], _ => true
  | _ :: _, [] => false
  | p :: ps, c :: cs => p = c && isPrefixChars ps cs

/-- True iff the first list occurs as a contiguous run inside the second. -/
def hasSub (pat : List Char) : List Char → Bool
  | [] => pat.isEmpty
  | c :: cs => isPrefixChars pat (c :: cs) || hasSub pat cs

/-- Number of question-mark characters in a string. -/
def countQ (s : String) : Nat := s.data.count '?'

/-- Modelled from the spec: a "recognizable lettered options block" — the
source has no such notion (no output rewriting exists in main.py), so for
the single-question claim we take any occurrence of a lettered option
marker as recognizable. -/
def hasLetteredOptions (s : String) : Bool :=
  ["A)", "B)", "C)", "A.", "B.", "C.", "a)", "b)", "c)"].any
    (fun t => hasSub t.data s.data)

/-- The image URLs occurring in a parts list, in order. -/
def imageURLs (ps : List MPart) : List String :=
  ps.filterMap (fun p => match p with | .image u => some u | _ => none)

/-- True iff an optional cost object is present and its with-cache estimate
is at most its upper bound. -/
def costLE : Option Cost → Bool
  | none => false
  | some k => decide (k.with_cache_assumed_usd ≤ k.upper_bound_usd)

/-! Helper lemmas about the assembly primitives. -/

lemma truthyStr_append_left (a b : String) (h : truthyStr a = true) :
    truthyStr (a ++ b) = true := by
  simp only [truthyStr, String.data_append, List.any_append, Bool.or_eq_true] at *
  exact Or.inl h

lemma addMsg_pos (msgs : List Msg) (role content : String) (h : truthyStr content = true) :
    add msgs role content = msgs ++ [⟨role, Content.text content⟩] := by
  simp [add, h]

lemma addMsg_skip (msgs : List Msg) (role content : String) (h : truthyStr content = false) :
    add msgs role content = msgs := by
  simp [add, h]

lemma truthy_MATHMATE : truthyStr MATHMATE_PROMPT = true := by decide

lemma truthy_HARD : truthyStr HARD_CONSTRAINT = true := by decide

lemma truthy_VISION : truthyStr VISION_GUARD = true := by decide

lemma truthy_grade_line (g : String) : truthyStr (grade_line g) = true := by
  unfold grade_line
  exact truthyStr_append_left _ _ (truthyStr_append_left _ _ (by decide))

lemma truthy_focus_line (f : String) : truthyStr (focus_line f) = true := by
  unfold focus_line
  exact truthyStr_append_left _ _ (truthyStr_append_left _ _ (by decide))

lemma level_line_truthy_of (lv : String) (h : recognizedLevel lv) :
    truthyStr (level_line lv) = true := by
  rcases h with h | h | h <;> subst h <;> decide

lemma level_line_empty_of (lv : String) (h : ¬ recognizedLevel lv) : level_line lv = "" := by
  unfold recognizedLevel at h
  push_neg at h
  obtain ⟨h1, h2, h3⟩ := h
  simp [level_line, h1, h2, h3]

lemma chat_call (cfg : Config) (svc : List Msg → Nat → Except String Completion)
    (req : ChatRequest) (ms : List Msg) (mo : Nat)
    (h : chatPhase1 cfg req = .call ms mo) :
    chat cfg svc req = chatPhase2 cfg (svc ms mo) := by
  unfold chat
  rw [h]

lemma chat_early (cfg : Config) (svc : List Msg → Nat → Except String Completion)
    (req : ChatRequest) (r : ChatResponse)
    (h : chatPhase1 cfg req = .early r) :
    chat cfg svc req = r := by
  unfold chat
  rw [h]

lemma imageURLs_cons_text (t : String) (ps : List MPart) :
    imageURLs (MPart.text t :: ps) = imageURLs ps := rfl

lemma imageURLs_cons_image (u : String) (ps : List MPart) :
    imageURLs (MPart.image u :: ps) = u :: imageURLs ps := rfl

lemma imageURLs_map_image (imgs : List String) :
    imageURLs (imgs.map MPart.image) = imgs := by
  induction imgs with
  | nil => rfl
  | cons a as ih => rw [List.map_cons, imageURLs_cons_image, ih]

lemma imageURLs_user_content (t : String) (imgs : List String) :
    imageURLs (user_content t imgs) = imgs := by
  unfold user_content
  by_cases ht : t = ""
  · rw [if_pos ht, List.nil_append]
    cases imgs with
    | nil => rfl
    | cons a as =>
      rw [if_neg (by simp)]
      exact imageURLs_map_image (a :: as)
  · rw [if_neg ht, List.singleton_append, if_neg (by simp), imageURLs_cons_text]
    exact imageURLs_map_image imgs

lemma afterFirstComma_eq_none (l : List Char) (h : ∀ c ∈ l, c ≠ ',') :
    afterFirstComma l = none := by
  induction l with
  | nil => rfl
  | cons c cs ih =>
    unfold afterFirstComma
    rw [if_neg (h c (by simp))]
    exact ih (fun x hx => h x (by simp [hx]))

/-! Concrete inputs used by the counterexamples and witnesses. -/

/-- A sample server configuration. -/
def cfgW : Config :=
  { password := "pw", debug := false, rate_input := 1, rate_cached_input := 0, rate_output := 2 }

/-- A plain authenticated request. -/
def reqW : ChatRequest :=
  { message := "hi", images := [], level := "", grade := "", current := "", focus := "",
    history := [], xAuth := "pw" }

/-- An authenticated request whose message is whitespace and which carries
no image. -/
def reqC4 : ChatRequest :=
  { message := "   ", images := [], level := "", grade := "", current := "", focus := "",
    history := [], xAuth := "pw" }

/-- A request with a wrong auth header whose message is the password in
different case. -/
def reqC5 : ChatRequest :=
  { message := "PW", images := [], level := "", grade := "", current := "", focus := "",
    history := [], xAuth := "wrong" }

/-- A request with a wrong auth header and an unrelated message. -/
def reqC5b : ChatRequest :=
  { message := "nope", images := [], level := "", grade := "", current := "", focus := "",
    history := [], xAuth := "wrong" }

/-- An authenticated request exercising level, grade, focus, one image and
a history with a whitespace-only entry. -/
def reqC7 : ChatRequest :=
  { message := "help", images := ["data:image/jpeg;base64,abc"], level := "Master",
    grade := "7", current := "1", focus := "ratios",
    history := [⟨"user", "hi"⟩, ⟨"assistant", "yo"⟩, ⟨"user", "   "⟩], xAuth := "pw" }

/-- An authenticated request submitting two images. -/
def reqC8 : ChatRequest :=
  { message := "hi", images := ["a,bb", "c,dd"], level := "", grade := "", current := "",
    focus := "", history := [], xAuth := "pw" }

/-- A data URL whose base64 payload decodes to roughly 805 KB. -/
def bigImg : String := ⟨',' :: List.replicate 1100000 'a'⟩

/-- An authenticated request carrying `bigImg`. -/
def reqBig : ChatRequest :=
  { message := "hi", images := [bigImg], level := "", grade := "", current := "", focus := "",
    history := [], xAuth := "pw" }

/-- First completion-service behaviour: a raw completion with four
question marks. -/
def svcC1 : List Msg → Nat → Except String Completion := fun _ _ => .ok ⟨"Why?? What??", none⟩

/-- A single-question raw completion. -/
def svcC1w : List Msg → Nat → Except String Completion :=
  fun _ _ => .ok ⟨"Is it option 1 or option 2?", none⟩

/-- A raw completion full of arithmetic symbols. -/
def svcC2 : List Msg → Nat → Except String Completion := fun _ _ => .ok ⟨"2+2=4", none⟩

/-- A raw completion with no arithmetic symbols. -/
def svcC2w : List Msg → Nat → Except String Completion :=
  fun _ _ => .ok ⟨"Which row would you check first?", none⟩

/-- The completion service on the first of two consecutive calls. -/
def svcC3a : List Msg → Nat → Except String Completion := fun _ _ => .ok ⟨"Same text.", none⟩

/-- The completion service on the second of two consecutive calls,
returning a byte-identical raw completion. -/
def svcC3b : List Msg → Nat → Except String Completion := fun _ _ => .ok ⟨"Same text.", none⟩

/-- A completion service that is never reached. -/
def svcAny : List Msg → Nat → Except String Completion := fun _ _ => .error "unreachable"

/-- A completion service answering a fixed text. -/
def svcOk : List Msg → Nat → Except String Completion := fun _ _ => .ok ⟨"ok", none⟩

/-- A completion service that raises. -/
def svcErr : List Msg → Nat → Except String Completion :=
  fun _ _ => .error "RuntimeError: boom"

/-- A completion with a usage object. -/
def compW : Completion := ⟨"Check row two.", some ⟨some 1000, some 50, some 1050⟩⟩

/-- A completion service returning `compW`. -/
def svcW10 : List Msg → Nat → Except String Completion := fun _ _ => .ok compW

/-- `approx_kb` of the concrete oversized image. -/
lemma afterFirstComma_cons (c : Char) (cs : List Char) :
    afterFirstComma (c :: cs) = if c = ',' then some cs else afterFirstComma cs := by
  rw [afterFirstComma]

lemma approx_kb_of_tail (s : String) (cs : List Char) (h : afterFirstComma s.data = some cs) :
    approx_kb s = cs.length * 3 / 4 / 1024 := by
  unfold approx_kb
  rw [h]

lemma approx_big : approx_kb bigImg = 805 := by
  have h1 : afterFirstComma bigImg.data = some (List.replicate 1100000 'a') := by
    rw [show bigImg.data = ',' :: List.replicate 1100000 'a' from rfl, afterFirstComma_cons,
      if_pos rfl]
  rw [approx_kb_of_tail bigImg (List.replicate 1100000 'a') h1, List.length_replicate]

/-! The claims. -/

/-- Claim C1 counterexample: an authenticated request whose completion
call succeeds with raw text "Why?? What??" yields a 200 response whose
reply has four question marks and no lettered options block, so the
single-question invariant claimed for the reply is false as stated. -/
theorem C1_counterexample :
    (chat cfgW svcC1 reqW).status = 200
    ∧ (chat cfgW svcC1 reqW).reply = some "Why?? What??"
    ∧ countQ ((chat cfgW svcC1 reqW).reply.getD "") ≠ 1
    ∧ hasLetteredOptions ((chat cfgW svcC1 reqW).reply.getD "") = false := by
  refine ⟨by decide, by decide, by decide, by decide⟩

/-- Claim C1 (amended): the endpoint performs no output rewriting: on a
successful completion call the reply is the raw completion text unchanged,
so its question-mark count and its possession of a lettered options block
are exactly those of the raw completion. -/
theorem C1_amended_passthrough (cfg : Config)
    (svc : List Msg → Nat → Except String Completion) (req : ChatRequest)
    (ms : List Msg) (mo : Nat) (c : Completion)
    (h1 : chatPhase1 cfg req = .call ms mo) (h2 : svc ms mo = .ok c) :
    (chat cfg svc req).reply = some c.content
    ∧ countQ ((chat cfg svc req).reply.getD "") = countQ c.content
    ∧ hasLetteredOptions ((chat cfg svc req).reply.getD "") = hasLetteredOptions c.content := by
  have hr : (chat cfg svc req).reply = some c.content := by
    rw [chat_call cfg svc req ms mo h1, h2]
    rfl
  rw [hr]
  exact ⟨rfl, rfl, rfl⟩

/-- Claim C1 amended witness at a concrete single-question completion. -/
theorem C1_amended_witness :
    (chat cfgW svcC1w reqW).reply = some "Is it option 1 or option 2?"
    ∧ countQ ((chat cfgW svcC1w reqW).reply.getD "") = countQ "Is it option 1 or option 2?" := by
  have h := C1_amended_passthrough cfgW svcC1w reqW _ _ ⟨"Is it option 1 or option 2?", none⟩ rfl rfl
  exact ⟨h.1, h.2.1⟩

/-- Claim C2 counterexample: the raw completion "2+2=4" contains
arithmetic operator characters, and the reply returned to the client is
that very string, still containing both a plus and an equals sign: no
masking is performed. -/
theorem C2_counterexample :
    (chat cfgW svcC2 reqW).status = 200
    ∧ (chat cfgW svcC2 reqW).reply = some "2+2=4"
    ∧ ((chat cfgW svcC2 reqW).reply.getD "").data.contains '+' = true
    ∧ ((chat cfgW svcC2 reqW).reply.getD "").data.contains '=' = true := by
  refine ⟨by decide, by decide, by decide, by decide⟩

/-- Claim C2 (amended): no masking stage exists; the reply is the raw
completion text, so it contains a given arithmetic operator character
exactly when the raw completion does. -/
theorem C2_amended_no_masking (cfg : Config)
    (svc : List Msg → Nat → Except String Completion) (req : ChatRequest)
    (ms : List Msg) (mo : Nat) (c : Completion)
    (h1 : chatPhase1 cfg req = .call ms mo) (h2 : svc ms mo = .ok c) :
    (chat cfg svc req).reply = some c.content
    ∧ ((chat cfg svc req).reply.getD "").data.contains '+' = c.content.data.contains '+'
    ∧ ((chat cfg svc req).reply.getD "").data.contains '=' = c.content.data.contains '='
    ∧ ((chat cfg svc req).reply.getD "").data.contains '^' = c.content.data.contains '^' := by
  have hr : (chat cfg svc req).reply = some c.content := by
    rw [chat_call cfg svc req ms mo h1, h2]
    rfl
  rw [hr]
  exact ⟨rfl, rfl, rfl, rfl⟩

/-- Claim C2 amended witness at a concrete operator-free completion. -/
theorem C2_amended_witness :
    (chat cfgW svcC2w reqW).reply = some "Which row would you check first?"
    ∧ ((chat cfgW svcC2w reqW).reply.getD "").data.contains '+'
        = ("Which row would you check first?").data.contains '+' := by
  have h := C2_amended_no_masking cfgW svcC2w reqW _ _ ⟨"Which row would you check first?", none⟩ rfl rfl
  exact ⟨h.1, h.2.1⟩

/-- Claim C3 counterexample: the server keeps no session state, so two
consecutive calls with the same session key whose raw completions are
byte-identical produce byte-identical replies — the claimed difference
does not occur. -/
theorem C3_counterexample :
    (chat cfgW svcC3a reqW).reply = some "Same text."
    ∧ (chat cfgW svcC3b reqW).reply = some "Same text."
    ∧ (chat cfgW svcC3a reqW).reply = (chat cfgW svcC3b reqW).reply := by
  refine ⟨by decide, by decide, by decide⟩

/-- Claim C3 (amended): the endpoint is stateless across calls; any two
calls with the same session key (level, focus, grade, identity token) —
whatever their messages and histories — whose raw completion texts are
byte-identical yield byte-identical replies. -/
theorem C3_amended_identical_replies (cfg : Config)
    (svc1 svc2 : List Msg → Nat → Except String Completion) (req1 req2 : ChatRequest)
    (ms1 ms2 : List Msg) (mo1 mo2 : Nat) (c1 c2 : Completion)
    (_hkey : req1.level = req2.level ∧ req1.focus = req2.focus ∧ req1.grade = req2.grade
      ∧ req1.xAuth = req2.xAuth)
    (h1 : chatPhase1 cfg req1 = .call ms1 mo1)
    (h2 : chatPhase1 cfg req2 = .call ms2 mo2)
    (ha : svc1 ms1 mo1 = .ok c1) (hb : svc2 ms2 mo2 = .ok c2)
    (hc : c1.content = c2.content) :
    (chat cfg svc1 req1).reply = (chat cfg svc2 req2).reply := by
  rw [chat_call cfg svc1 req1 ms1 mo1 h1, ha, chat_call cfg svc2 req2 ms2 mo2 h2, hb]
  simp [chatPhase2, hc]

/-- A second consecutive turn in the same session as `reqW`: same level,
focus, grade and identity token, but a different message and a grown
history. -/
def reqC3 : ChatRequest :=
  { message := "what next", images := [], level := "", grade := "", current := "2",
    focus := "", history := [⟨"user", "hi"⟩, ⟨"assistant", "Same text."⟩], xAuth := "pw" }

/-- Claim C3 amended witness: two distinct consecutive requests in the
same session whose raw completions are byte-identical. -/
theorem C3_amended_witness :
    (chat cfgW svcC3a reqW).reply = (chat cfgW svcC3b reqC3).reply :=
  C3_amended_identical_replies cfgW svcC3a svcC3b reqW reqC3 _ _ _ _ _ _
    ⟨rfl, rfl, rfl, rfl⟩ rfl rfl rfl rfl rfl

/-- Claim C6: when the completion call raises, the endpoint returns a 500
response whose error field is exactly "Server error" unless DEBUG is on,
in which case it carries the exception text; the reply field is absent
(no fabricated tutoring text). -/
theorem C6_error_envelope (cfg : Config)
    (svc : List Msg → Nat → Except String Completion) (req : ChatRequest)
    (ms : List Msg) (mo : Nat) (e : String)
    (h1 : chatPhase1 cfg req = .call ms mo) (h2 : svc ms mo = .error e) :
    (chat cfg svc req).status = 500
    ∧ (chat cfg svc req).error = some (if cfg.debug then e else "Server error")
    ∧ (chat cfg svc req).reply = none
    ∧ (cfg.debug = false → (chat cfg svc req).error = some "Server error") := by
  rw [chat_call cfg svc req ms mo h1, h2]
  refine ⟨rfl, rfl, rfl, fun hd => ?_⟩
  simp [chatPhase2, hd]

/-- Claim C6 witness: a concrete raising completion service with DEBUG
off. -/
theorem C6_witness :
    (chat cfgW svcErr reqW).status = 500
    ∧ (chat cfgW svcErr reqW).error = some "Server error"
    ∧ (chat cfgW svcErr reqW).reply = none := by
  have h := C6_error_envelope cfgW svcErr reqW _ _ "RuntimeError: boom" rfl rfl
  exact ⟨h.1, h.2.2.2 rfl, h.2.2.1⟩

/-- Claim C4 counterexample: an authenticated request whose message is
whitespace-only and whose images list is empty is NOT rejected: phase 1
reaches the completion call and the completion's answer is returned with
status 200. -/
theorem C4_counterexample :
    pyStrip reqC4.message = ""
    ∧ reqC4.images = []
    ∧ isCall (chatPhase1 cfgW reqC4) = true
    ∧ (chat cfgW svcOk reqC4).status = 200
    ∧ (chat cfgW svcOk reqC4).reply = some "ok" := by
  refine ⟨by decide, rfl, by decide, by decide, by decide⟩

/-- Claim C4 (amended): with an empty (post-strip) message and no images,
the endpoint substitutes the fixed placeholder user text "Please analyze
the attached image problem." and proceeds to the completion call; no
client error is returned. -/
theorem C4_amended_placeholder_call (cfg : Config) (req : ChatRequest)
    (hauth : req.xAuth = cfg.password)
    (hmsg : pyStrip req.message = "") (himg : req.images = []) :
    isCall (chatPhase1 cfg req) = true
    ∧ (phase1Messages (chatPhase1 cfg req)).getLast? =
        some ⟨"user", Content.parts [MPart.text "Please analyze the attached image problem."]⟩ := by
  simp only [chatPhase1, hauth, hmsg, himg, ne_eq, not_true_eq_false, if_false,
    List.any_nil, Bool.false_eq_true, List.take_nil]
  constructor
  · rfl
  · simp [phase1Messages, user_content, List.getLast?_concat]

/-- Claim C4 amended witness at the concrete whitespace-message request. -/
theorem C4_amended_witness :
    isCall (chatPhase1 cfgW reqC4) = true
    ∧ (phase1Messages (chatPhase1 cfgW reqC4)).getLast? =
        some ⟨"user", Content.parts [MPart.text "Please analyze the attached image problem."]⟩ :=
  C4_amended_placeholder_call cfgW reqC4 rfl (by decide) rfl

/-- Claim C5 counterexample: a request whose X-Auth header is wrong but
whose message matches the password case-insensitively receives the unlock
reply, not the neutral please-authenticate reply, so the claim's fixed
reply text is wrong for that case (status is still 200). -/
theorem C5_counterexample :
    reqC5.xAuth ≠ cfgW.password
    ∧ (chat cfgW svcAny reqC5).status = 200
    ∧ (chat cfgW svcAny reqC5).reply =
        some "🔓 Unlocked! Pick your grade & level, then send your problem or a photo. ✨"
    ∧ (chat cfgW svcAny reqC5).reply ≠ some "🔒 Please type the access password to begin." := by
  refine ⟨by decide, by decide, by decide, by decide⟩

/-- Claim C5 (amended): whenever the X-Auth header differs from the
password the endpoint answers with HTTP 200 — the unlock reply when the
stripped message equals the password case-insensitively, the neutral
please-authenticate reply otherwise — and never reaches the completion
call. -/
theorem C5_amended_auth_branch (cfg : Config)
    (svc : List Msg → Nat → Except String Completion) (req : ChatRequest)
    (h : req.xAuth ≠ cfg.password) :
    (chat cfg svc req).status = 200
    ∧ (chat cfg svc req).reply =
        some (if pyLower (pyStrip req.message) = pyLower cfg.password
              then "🔓 Unlocked! Pick your grade & level, then send your problem or a photo. ✨"
              else "🔒 Please type the access password to begin.")
    ∧ isCall (chatPhase1 cfg req) = false := by
  by_cases hc : pyLower (pyStrip req.message) = pyLower cfg.password <;>
    simp [chat, chatPhase1, isCall, unlockResponse, lockedResponse, h, hc]

/-- Claim C5 amended witness at a concrete wrong-header request. -/
theorem C5_amended_witness :
    reqC5b.xAuth ≠ cfgW.password
    ∧ (chat cfgW svcAny reqC5b).status = 200
    ∧ (chat cfgW svcAny reqC5b).reply = some "🔒 Please type the access password to begin."
    ∧ isCall (chatPhase1 cfgW reqC5b) = false := by
  have h := C5_amended_auth_branch cfgW svcAny reqC5b (by decide)
  refine ⟨by decide, h.1, ?_, h.2.2⟩
  rw [h.2.1]
  decide

/-- Claim C8: whenever phase 1 reaches the completion call, the final
outbound message is the user turn built from the images list truncated to
its first element, and it carries at most one image reference. -/
theorem C8_single_image (cfg : Config) (req : ChatRequest) (ms : List Msg) (mo : Nat)
    (h1 : chatPhase1 cfg req = .call ms mo) :
    ms.getLast? =
      some ⟨"user", Content.parts (user_content (pyStrip req.message) (req.images.take 1))⟩
    ∧ imageURLs (user_content (pyStrip req.message) (req.images.take 1)) = req.images.take 1
    ∧ (imageURLs (user_content (pyStrip req.message) (req.images.take 1))).length ≤ 1 := by
  refine ⟨?_, imageURLs_user_content _ _, ?_⟩
  · simp only [chatPhase1] at h1
    split at h1
    · split at h1 <;> cases h1
    · split at h1
      · cases h1
      · cases h1
        rw [List.getLast?_concat]
  · rw [imageURLs_user_content, List.length_take]
    exact min_le_left _ _

/-- Claim C8 witness: a concrete request submitting two images. -/
theorem C8_witness :
    (phase1Messages (chatPhase1 cfgW reqC8)).getLast? =
      some ⟨"user", Content.parts (user_content (pyStrip reqC8.message) (reqC8.images.take 1))⟩
    ∧ imageURLs (user_content (pyStrip reqC8.message) (reqC8.images.take 1)) = ["a,bb"]
    ∧ (imageURLs (user_content (pyStrip reqC8.message) (reqC8.images.take 1))).length ≤ 1 := by
  have h := C8_single_image cfgW reqC8 _ _ rfl
  refine ⟨?_, ?_, h.2.2⟩
  · exact h.1
  · rw [h.2.1]
    decide

/-- Claim C9: an authenticated request carrying (anywhere in its full
images list) a data URL whose approximate decoded size exceeds 800 KB is
answered with the fixed 200 "please crop" reply and the completion service
is never called; and `approx_kb` is total — on any string without a comma
the raised IndexError is swallowed and 0 is returned, so a malformed data
URL can never trigger this rejection. -/
theorem C9_big_image_guard (cfg : Config)
    (svc : List Msg → Nat → Except String Completion) (req : ChatRequest)
    (hauth : req.xAuth = cfg.password)
    (hbig : req.images.any (fun u => decide (800 < approx_kb u)) = true) :
    chatPhase1 cfg req = .early cropResponse
    ∧ chat cfg svc req = cropResponse
    ∧ (chat cfg svc req).status = 200
    ∧ (chat cfg svc req).reply =
        some "That picture is still pretty big. Could you crop to just the problem and resend? 📷✂️"
    ∧ (∀ s : String, (∀ c ∈ s.data, c ≠ ',') → approx_kb s = 0) := by
  have hp : chatPhase1 cfg req = .early cropResponse := by
    unfold chatPhase1
    rw [if_neg (by simp [hauth]), if_pos hbig]
  have hch : chat cfg svc req = cropResponse := chat_early cfg svc req _ hp
  refine ⟨hp, hch, by rw [hch]; rfl, by rw [hch]; rfl, fun s hs => ?_⟩
  unfold approx_kb
  rw [afterFirstComma_eq_none s.data hs]

/-- Claim C9 witness: the concrete 805 KB image is rejected with the crop
reply, and a concrete comma-free string measures 0 KB. -/
theorem C9_witness :
    (chat cfgW svcAny reqBig).status = 200
    ∧ (chat cfgW svcAny reqBig).reply =
        some "That picture is still pretty big. Could you crop to just the problem and resend? 📷✂️"
    ∧ approx_kb "no-comma-here" = 0 := by
  have h := C9_big_image_guard cfgW svcAny reqBig rfl (by simp [reqBig, approx_big])
  exact ⟨h.2.2.1, h.2.2.2.1, h.2.2.2.2 "no-comma-here" (by decide)⟩

/-- Claim C10: on a successful completion call, assuming the cached-input
rate does not exceed the input rate and the reported token counts are
nonnegative, the returned cost object satisfies
`with_cache_assumed_usd ≤ upper_bound_usd`; the two estimates differ by
exactly `min 600 prompt_tokens` prompt tokens repriced at the cheaper
cached rate. -/
theorem C10_cache_cost_bound (cfg : Config)
    (svc : List Msg → Nat → Except String Completion) (req : ChatRequest)
    (ms : List Msg) (mo : Nat) (c : Completion)
    (h1 : chatPhase1 cfg req = .call ms mo) (h2 : svc ms mo = .ok c)
    (hr : cfg.rate_cached_input ≤ cfg.rate_input)
    (hpt : 0 ≤ promptTokensOf c) (_hct : 0 ≤ completionTokensOf c) :
    costLE (chat cfg svc req).cost = true
    ∧ (chat cfg svc req).cost = some
        ⟨(promptTokensOf c : ℚ) * cfg.rate_input
           + (completionTokensOf c : ℚ) * cfg.rate_output,
         ((promptTokensOf c - min 600 (promptTokensOf c) : Int) : ℚ) * cfg.rate_input
           + ((min 600 (promptTokensOf c) : Int) : ℚ) * cfg.rate_cached_input
           + (completionTokensOf c : ℚ) * cfg.rate_output⟩ := by
  have hc : (chat cfg svc req).cost = some
      ⟨(promptTokensOf c : ℚ) * cfg.rate_input
         + (completionTokensOf c : ℚ) * cfg.rate_output,
       ((promptTokensOf c - min 600 (promptTokensOf c) : Int) : ℚ) * cfg.rate_input
         + ((min 600 (promptTokensOf c) : Int) : ℚ) * cfg.rate_cached_input
         + (completionTokensOf c : ℚ) * cfg.rate_output⟩ := by
    rw [chat_call cfg svc req ms mo h1, h2]
    rfl
  refine ⟨?_, hc⟩
  rw [hc]
  unfold costLE
  rw [decide_eq_true_iff]
  have hac : (0 : ℤ) ≤ min 600 (promptTokensOf c) := le_min (by norm_num) hpt
  have hkey : (0 : ℚ) ≤ ((min 600 (promptTokensOf c) : Int) : ℚ)
      * (cfg.rate_input - cfg.rate_cached_input) :=
    mul_nonneg (by exact_mod_cast hac) (sub_nonneg.mpr hr)
  push_cast at hkey ⊢
  nlinarith [hkey]

/-- Claim C10 witness at a concrete 1000-prompt-token completion. -/
theorem C10_witness :
    cfgW.rate_cached_input ≤ cfgW.rate_input
    ∧ costLE (chat cfgW svcW10 reqW).cost = true := by
  refine ⟨by norm_num [cfgW], ?_⟩
  exact (C10_cache_cost_bound cfgW svcW10 reqW _ _ compW rfl rfl (by norm_num [cfgW])
    (by decide) (by decide)).1

/-- Claim C7: for every authenticated request passing the size guard, the
outbound message list is exactly: the static tutoring-policy prompt, the
grade line, the level line (omitted when the level is unrecognized), the
focus line, the vision-guard line (exactly when an image is present), the
hard-constraint line — all system-tagged — then the surviving entries of
the last-6 history window tagged user/assistant (at most 6 of them), and
finally the current user turn. -/
theorem C7_message_assembly (cfg : Config) (req : ChatRequest)
    (hauth : req.xAuth = cfg.password)
    (hbig : req.images.any (fun u => decide (800 < approx_kb u)) = false) :
    chatPhase1 cfg req = Phase1.call
      ([⟨"system", Content.text MATHMATE_PROMPT⟩,
        ⟨"system", Content.text (grade_line (pyStrip req.grade))⟩]
       ++ (if recognizedLevel (pyLower (pyStrip req.level))
           then [⟨"system", Content.text (level_line (pyLower (pyStrip req.level)))⟩] else [])
       ++ [⟨"system", Content.text (focus_line (pyStrip req.focus))⟩]
       ++ (if (req.images.take 1).isEmpty then []
           else [⟨"system", Content.text VISION_GUARD⟩])
       ++ [⟨"system", Content.text HARD_CONSTRAINT⟩]
       ++ histMsgs req.history
       ++ [⟨"user", Content.parts (user_content (pyStrip req.message) (req.images.take 1))⟩])
      (max_out (pyLower (pyStrip req.level)))
    ∧ (histMsgs req.history).length ≤ 6
    ∧ (∀ m ∈ histMsgs req.history, m.role = "user" ∨ m.role = "assistant") := by
  refine ⟨?_, ?_, ?_⟩
  · simp only [chatPhase1]
    rw [if_neg (by simp [hauth]), if_neg (by simp [hbig])]
    rw [addMsg_pos _ _ _ truthy_MATHMATE, addMsg_pos _ _ _ (truthy_grade_line _)]
    by_cases hl : recognizedLevel (pyLower (pyStrip req.level))
    · rw [if_pos hl, addMsg_pos _ _ _ (level_line_truthy_of _ hl),
        addMsg_pos _ _ _ (truthy_focus_line _)]
      by_cases hv : (req.images.take 1).isEmpty = true
      · rw [if_pos hv, if_pos hv, addMsg_skip _ _ "" (by decide),
          addMsg_pos _ _ _ truthy_HARD]
        simp [List.append_assoc]
      · rw [if_neg hv, if_neg hv, addMsg_pos _ _ _ truthy_VISION,
          addMsg_pos _ _ _ truthy_HARD]
        simp [List.append_assoc]
    · rw [if_neg hl, level_line_empty_of _ hl, addMsg_skip _ _ "" (by decide),
        addMsg_pos _ _ _ (truthy_focus_line _)]
      by_cases hv : (req.images.take 1).isEmpty = true
      · rw [if_pos hv, if_pos hv, addMsg_skip _ _ "" (by decide),
          addMsg_pos _ _ _ truthy_HARD]
        simp [List.append_assoc]
      · rw [if_neg hv, if_neg hv, addMsg_pos _ _ _ truthy_VISION,
          addMsg_pos _ _ _ truthy_HARD]
        simp [List.append_assoc]
  · unfold histMsgs
    have h1 := List.length_filterMap_le histEntryMsg (req.history.drop (req.history.length - 6))
    rw [List.length_drop] at h1
    omega
  · intro m hm
    unfold histMsgs at hm
    obtain ⟨h, _, hh⟩ := List.mem_filterMap.mp hm
    unfold histEntryMsg at hh
    by_cases hc : pyStrip h.content = ""
    · rw [if_pos hc] at hh
      cases hh
    · rw [if_neg hc] at hh
      cases hh
      by_cases hr : h.role = "assistant"
      · right
        simp [hr]
      · left
        simp [hr]

/-- Claim C7 witness: a concrete request with level Master, one image, and
a three-entry history with one whitespace-only entry. -/
theorem C7_witness :
    reqC7.xAuth = cfgW.password
    ∧ reqC7.images.any (fun u => decide (800 < approx_kb u)) = false
    ∧ chatPhase1 cfgW reqC7 = Phase1.call
        ([⟨"system", Content.text MATHMATE_PROMPT⟩,
          ⟨"system", Content.text (grade_line (pyStrip reqC7.grade))⟩]
         ++ (if recognizedLevel (pyLower (pyStrip reqC7.level))
             then [⟨"system", Content.text (level_line (pyLower (pyStrip reqC7.level)))⟩] else [])
         ++ [⟨"system", Content.text (focus_line (pyStrip reqC7.focus))⟩]
         ++ (if (reqC7.images.take 1).isEmpty then []
             else [⟨"system", Content.text VISION_GUARD⟩])
         ++ [⟨"system", Content.text HARD_CONSTRAINT⟩]
         ++ histMsgs reqC7.history
         ++ [⟨"user", Content.parts (user_content (pyStrip reqC7.message) (reqC7.images.take 1))⟩])
        (max_out (pyLower (pyStrip reqC7.level)))
    ∧ (histMsgs reqC7.history).length ≤ 6 := by
  have h := C7_message_assembly cfgW reqC7 rfl (by decide)
  exact ⟨rfl, by decide, h.1, h.2.1⟩
